import Mathlib

/-!
Verification of the styling core of the `prompt_utils` repository:
the `Style` / `StyleChange` keep-or-set algebra (`src/styling.rs`),
the ANSI backend (`src/writers/ansi.rs`), the no-op backend
(`src/writers/not_styled.rs`) and the `with_style!` scoped-apply helper.

Machine integers (`u8`) are embedded as `Nat`; the embedded code only
formats them or masks them with small constants, so no wrap-around occurs.
The underlying `io::Write` sink is embedded as a `Sink` that records the
bytes successfully written and can be scheduled to start failing after a
given number of successful writes, with a fixed error payload standing in
for `io::Error`.
-/

namespace PromptUtils

/-- `Change<T>` from `src/styling.rs`: keep the current value or set it. -/
inductive Change (T : Type) where
  | keep : Change T
  | setTo : T → Change T
deriving DecidableEq

/-- `Change::apply_to` from `src/styling.rs`. -/
def Change.applyTo {T : Type} : Change T → T → T
  | Change.keep, value => value
  | Change.setTo value, _ => value

/-- `Change::reverting_to` from `src/styling.rs`. -/
def Change.revertingTo {T : Type} : Change T → T → Change T
  | Change.keep, _ => Change.keep
  | Change.setTo _, previous => Change.setTo previous

/-- The bits of the `Color4Bit` bitflags struct from `src/styling.rs` (a `u8`). -/
abbrev Color4Bit := Nat

/-- `Color4Bit::BRIGHT_BIT`. -/
def Color4Bit.BRIGHT_BIT : Color4Bit := 8

/-- `Color4Bit::RED_BIT`. -/
def Color4Bit.RED_BIT : Color4Bit := 1

/-- `Color4Bit::GREEN_BIT`. -/
def Color4Bit.GREEN_BIT : Color4Bit := 2

/-- `Color4Bit::BLUE_BIT`. -/
def Color4Bit.BLUE_BIT : Color4Bit := 4

/-- `Color4Bit::COLOR_MASK = RED_BIT | GREEN_BIT | BLUE_BIT`. -/
def Color4Bit.COLOR_MASK : Color4Bit := 7

/-- `Color` from `src/styling.rs` (`u8` components embedded as `Nat`). -/
inductive Color where
  | unset : Color
  | color4Bit : Color4Bit → Color
  | ansi256 : Nat → Color
  | rgb : Nat → Nat → Nat → Color
deriving DecidableEq

/-- `Style` from `src/styling.rs`. -/
@[ext]
structure Style where
  foreground : Color
  background : Color
  bold : Bool
  dim : Bool
  underline : Bool
  italic : Bool
  blink : Bool
  strike : Bool
deriving DecidableEq

/-- `Style::default()`: all colors unset, all attributes off. -/
def Style.default : Style where
  foreground := Color.unset
  background := Color.unset
  bold := false
  dim := false
  underline := false
  italic := false
  blink := false
  strike := false

/-- `Style::colors_swapped` from `src/styling.rs`. -/
def Style.colorsSwapped (s : Style) : Style :=
  { s with foreground := s.background, background := s.foreground }

/-- `StyleChange` from `src/styling.rs`. -/
structure StyleChange where
  foreground : Change Color
  background : Change Color
  bold : Change Bool
  dim : Change Bool
  underline : Change Bool
  italic : Change Bool
  blink : Change Bool
  strike : Change Bool
deriving DecidableEq

/-- `StyleChange::KEEP` (also its `Default`): keep every attribute. -/
def StyleChange.KEEP : StyleChange where
  foreground := Change.keep
  background := Change.keep
  bold := Change.keep
  dim := Change.keep
  underline := Change.keep
  italic := Change.keep
  blink := Change.keep
  strike := Change.keep

/-- `StyleChange::RESET`: set every attribute to its default. -/
def StyleChange.RESET : StyleChange where
  foreground := Change.setTo Color.unset
  background := Change.setTo Color.unset
  bold := Change.setTo false
  dim := Change.setTo false
  underline := Change.setTo false
  italic := Change.setTo false
  blink := Change.setTo false
  strike := Change.setTo false

/-- `StyleChange::apply_to` from `src/styling.rs`: keep-fields pass the old
value through, set-fields override. The Rust source spells each field as an
inline `match`, which is exactly the body of `Change::apply_to`, so the
per-field `Change.applyTo` is used here. -/
def StyleChange.applyTo (c : StyleChange) (style : Style) : Style where
  foreground := c.foreground.applyTo style.foreground
  background := c.background.applyTo style.background
  bold := c.bold.applyTo style.bold
  dim := c.dim.applyTo style.dim
  italic := c.italic.applyTo style.italic
  underline := c.underline.applyTo style.underline
  blink := c.blink.applyTo style.blink
  strike := c.strike.applyTo style.strike

/-- `StyleChange::reverting_to` from `src/styling.rs`: per-field
`Change::reverting_to` against the previous style. -/
def StyleChange.revertingTo (c : StyleChange) (previous : Style) : StyleChange where
  foreground := c.foreground.revertingTo previous.foreground
  background := c.background.revertingTo previous.background
  bold := c.bold.revertingTo previous.bold
  dim := c.dim.revertingTo previous.dim
  underline := c.underline.revertingTo previous.underline
  italic := c.italic.revertingTo previous.italic
  blink := c.blink.revertingTo previous.blink
  strike := c.strike.revertingTo previous.strike

/-- `StyleChange::any` from `src/styling.rs`: whether any field is not `Keep`
(the Rust code is a negated `matches!` against the all-`Keep` pattern). -/
def StyleChange.any (c : StyleChange) : Bool :=
  !(match c with
    | ⟨Change.keep, Change.keep, Change.keep, Change.keep,
       Change.keep, Change.keep, Change.keep, Change.keep⟩ => true
    | _ => false)

/-- Model of the underlying `io::Write` sink: `out` is the bytes written so
far; when `failAfter = some n`, the next `n` writes succeed and every write
after that fails with error payload `err` (standing in for `io::Error`);
`failAfter = none` means writes never fail. A failed write appends nothing. -/
structure Sink where
  out : String
  failAfter : Option Nat
  err : Nat
deriving DecidableEq

/-- One `write!` call on the sink: appends on success, otherwise reports
the sink's error. -/
def Sink.write (s : Sink) (str : String) : Sink × Option Nat :=
  match s.failAfter with
  | none => ({ s with out := s.out ++ str }, none)
  | some 0 => (s, some s.err)
  | some (n + 1) => ({ s with out := s.out ++ str, failAfter := some n }, none)

/-- A sequence of `write!` calls, stopping at the first failure: this models
the `?`-propagation in the Rust writer methods. -/
def Sink.writeAll (s : Sink) : List String → Sink × Option Nat
  | [] => (s, none)
  | str :: rest =>
    match s.write str with
    | (s1, none) => s1.writeAll rest
    | (s1, some e) => (s1, some e)

/-- `ANSIStyledWriter` from `src/writers/ansi.rs`: an underlying sink plus
the tracked current style (initially `Style::default()`). -/
structure ANSIStyledWriter where
  writer : Sink
  style : Style
deriving DecidableEq

/-- `NotStyledWriter` from `src/writers/not_styled.rs`: an underlying sink
plus the tracked current style. -/
structure NotStyledWriter where
  writer : Sink
  style : Style
deriving DecidableEq

/-- The single atomic `write!` made for a foreground color inside
`ANSIStyledWriter::change_style` (the `match change.foreground` arms in
`src/writers/ansi.rs`). -/
def foregroundComponent : Color → String
  | Color.unset => "39"
  | Color.color4Bit color =>
    let colorNumber := color &&& Color4Bit.COLOR_MASK
    if color &&& Color4Bit.BRIGHT_BIT = Color4Bit.BRIGHT_BIT then
      "9" ++ toString colorNumber
    else
      "3" ++ toString colorNumber
  | Color.ansi256 color => "38;5;" ++ toString color
  | Color.rgb r g b => "38;2;" ++ toString r ++ ";" ++ toString g ++ ";" ++ toString b

/-- The single atomic `write!` made for a background color inside
`ANSIStyledWriter::change_style` (the `match change.background` arms in
`src/writers/ansi.rs`). -/
def backgroundComponent : Color → String
  | Color.unset => "49"
  | Color.color4Bit color =>
    let colorNumber := color &&& Color4Bit.COLOR_MASK
    if color &&& Color4Bit.BRIGHT_BIT = Color4Bit.BRIGHT_BIT then
      "10" ++ toString colorNumber
    else
      "4" ++ toString colorNumber
  | Color.ansi256 color => "48;5;" ++ toString color
  | Color.rgb r g b => "48;2;" ++ toString r ++ ";" ++ toString g ++ ";" ++ toString b

/-- The combined SGR code for a resulting (bold, dim) pair: the inner
`match (bold, dim)` of `ANSIStyledWriter::change_style`
(`src/writers/ansi.rs`), which is also the table of §4.3 of the spec. -/
def boldDimCode : Bool → Bool → String
  | true, true => "1;2"
  | true, false => "22;1"
  | false, true => "22;2"
  | false, false => "22"

/-- The coupled bold/dim block of `ANSIStyledWriter::change_style`: when
either field is not `Keep`, resolve both and emit the single combined
component; otherwise emit nothing and keep the current values. -/
def boldDimComponents (style : Style) (change : StyleChange) :
    List String × Bool × Bool :=
  if !(match change.bold, change.dim with
       | Change.keep, Change.keep => true
       | _, _ => false) then
    let bold := match change.bold with
      | Change.keep => style.bold
      | Change.setTo bold => bold
    let dim := match change.dim with
      | Change.keep => style.dim
      | Change.setTo dim => dim
    ([boldDimCode bold dim], bold, dim)
  else
    (([] : List String), style.bold, style.dim)

/-- The italic block of `ANSIStyledWriter::change_style`: `3` to enable,
`23` to disable. -/
def italicComponents (style : Style) (change : StyleChange) : List String × Bool :=
  match change.italic with
  | Change.keep => (([] : List String), style.italic)
  | Change.setTo true => (["3"], true)
  | Change.setTo false => (["23"], false)

/-- The underline block of `ANSIStyledWriter::change_style`: `4` to enable,
`24` to disable. -/
def underlineComponents (style : Style) (change : StyleChange) : List String × Bool :=
  match change.underline with
  | Change.keep => (([] : List String), style.underline)
  | Change.setTo true => (["4"], true)
  | Change.setTo false => (["24"], false)

/-- The blink block of `ANSIStyledWriter::change_style`: `5` to enable,
`25` to disable. -/
def blinkComponents (style : Style) (change : StyleChange) : List String × Bool :=
  match change.blink with
  | Change.keep => (([] : List String), style.blink)
  | Change.setTo true => (["5"], true)
  | Change.setTo false => (["25"], false)

/-- The strike block of `ANSIStyledWriter::change_style`: `9` to enable,
`29` to disable. -/
def strikeComponents (style : Style) (change : StyleChange) : List String × Bool :=
  match change.strike with
  | Change.keep => (([] : List String), style.strike)
  | Change.setTo true => (["9"], true)
  | Change.setTo false => (["29"], false)

/-- The foreground block of `ANSIStyledWriter::change_style`. -/
def foregroundComponents (style : Style) (change : StyleChange) : List String × Color :=
  match change.foreground with
  | Change.keep => (([] : List String), style.foreground)
  | Change.setTo foreground => ([foregroundComponent foreground], foreground)

/-- The background block of `ANSIStyledWriter::change_style`. -/
def backgroundComponents (style : Style) (change : StyleChange) : List String × Color :=
  match change.background with
  | Change.keep => (([] : List String), style.background)
  | Change.setTo background => ([backgroundComponent background], background)

/-- The body of `ANSIStyledWriter::change_style` (`src/writers/ansi.rs`,
after the early `!change.any()` return), with the interleaved
`write_component!` calls collected in order: returns the list of SGR
components written (each one the content of one `write_component!`) and the
resolved style stored at the end. The Rust code computes each resolved field
and emits its component in this exact order: the coupled bold/dim pair,
italic, underline, blink, strike, foreground, background. -/
def ANSIStyledWriter.changeStyleComponents (style : Style) (change : StyleChange) :
    List String × Style :=
  ((boldDimComponents style change).1 ++ (italicComponents style change).1
     ++ (underlineComponents style change).1 ++ (blinkComponents style change).1
     ++ (strikeComponents style change).1 ++ (foregroundComponents style change).1
     ++ (backgroundComponents style change).1,
   { foreground := (foregroundComponents style change).2
     background := (backgroundComponents style change).2
     bold := (boldDimComponents style change).2.1
     dim := (boldDimComponents style change).2.2
     underline := (underlineComponents style change).2
     italic := (italicComponents style change).2
     blink := (blinkComponents style change).2
     strike := (strikeComponents style change).2 })

/-- The tail of the atomic write sequence produced by `write_component!`
once `is_first` is false: each later component is preceded by a `";"` write,
and the sequence closes with the final `write!("m")`. -/
def sgrTail : List String → List String
  | [] => ["m"]
  | comp :: rest => ";" :: comp :: sgrTail rest

/-- The full atomic write sequence of `ANSIStyledWriter::change_style` for a
given component list: `"\x1B["` before the first component (written by
`write_component!` while `is_first` still holds), `";"` before each later
one, then the closing `"m"`. -/
def sgrWrites : List String → List String
  | [] => ["m"]
  | comp :: rest => "\x1B[" :: comp :: sgrTail rest

/-- `ANSIStyledWriter::change_style` from `src/writers/ansi.rs`: early
no-write return when nothing changes; otherwise perform the writes and, if
they all succeed, store the resolved style (on a failed write the style is
left unchanged, as the Rust `?` returns before the assignment). -/
def ANSIStyledWriter.changeStyle (w : ANSIStyledWriter) (change : StyleChange) :
    ANSIStyledWriter × Option Nat :=
  if change.any then
    match ANSIStyledWriter.changeStyleComponents w.style change with
    | (comps, newStyle) =>
      match w.writer.writeAll (sgrWrites comps) with
      | (sink, none) => ({ writer := sink, style := newStyle }, none)
      | (sink, some e) => ({ w with writer := sink }, some e)
  else
    (w, none)

/-- `ANSIStyledWriter::swap_colors` from `src/writers/ansi.rs`: no-op when
the two colors are equal; otherwise one escape sequence with the foreground
component of the old background and the background component of the old
foreground, then the two style fields are swapped (only after all writes
succeed). -/
def ANSIStyledWriter.swapColors (w : ANSIStyledWriter) : ANSIStyledWriter × Option Nat :=
  if w.style.foreground = w.style.background then
    (w, none)
  else
    match w.writer.writeAll
        ["\x1B[", foregroundComponent w.style.background, ";",
         backgroundComponent w.style.foreground, "m"] with
    | (sink, none) =>
      ({ writer := sink
         style := { w.style with
                    foreground := w.style.background
                    background := w.style.foreground } }, none)
    | (sink, some e) => ({ w with writer := sink }, some e)

/-- `NotStyledWriter::change_style` from `src/writers/not_styled.rs`: store
the resolved style, write nothing, always succeed. -/
def NotStyledWriter.changeStyle (w : NotStyledWriter) (change : StyleChange) :
    NotStyledWriter × Option Nat :=
  ({ w with style := change.applyTo w.style }, none)

/-- The `StyledWrite::reset_style` default from `src/styling.rs`, which
`NotStyledWriter` inherits: `change_style(StyleChange::RESET)`. -/
def NotStyledWriter.resetStyle (w : NotStyledWriter) : NotStyledWriter × Option Nat :=
  w.changeStyle StyleChange.RESET

/-- The `StyledWrite::swap_colors` default from `src/styling.rs`, which
`NotStyledWriter` inherits: a `change_style` setting each color to the
other, everything else `Keep` (`..Default::default()`). -/
def NotStyledWriter.swapColors (w : NotStyledWriter) : NotStyledWriter × Option Nat :=
  w.changeStyle
    { StyleChange.KEEP with
      foreground := Change.setTo w.style.background
      background := Change.setTo w.style.foreground }

/-- Folding a sequence of `change_style` calls over a `NotStyledWriter`. -/
def NotStyledWriter.applySeq (w : NotStyledWriter) : List StyleChange → NotStyledWriter
  | [] => w
  | c :: rest => ((w.changeStyle c).1).applySeq rest

/-- Folding a sequence of `change_style` calls over an `ANSIStyledWriter`. -/
def ANSIStyledWriter.applySeq (w : ANSIStyledWriter) : List StyleChange → ANSIStyledWriter
  | [] => w
  | c :: rest => ((w.changeStyle c).1).applySeq rest

/-- The `with_style!` macro from `src/styling.rs`, generic over the writer
exactly as the macro is: `styleOf` and `changeStyle` are the
`StyledWrite::style` / `StyledWrite::change_style` methods of the backend,
`work` is the bracketed code (which may mutate the writer and yields a
value). The reverting change is computed from the style BEFORE the first
`change_style`; an error from either `change_style` call is returned as is,
and the first error aborts before running the work. -/
def withStyle {σ V : Type} (styleOf : σ → Style)
    (changeStyle : σ → StyleChange → σ × Option Nat)
    (w : σ) (styleChange : StyleChange) (work : σ → σ × V) : σ × Except Nat V :=
  let revertStyleChange := styleChange.revertingTo (styleOf w)
  match changeStyle w styleChange with
  | (w1, some err) => (w1, Except.error err)
  | (w1, none) =>
    match work w1 with
    | (w2, result) =>
      match changeStyle w2 revertStyleChange with
      | (w3, none) => (w3, Except.ok result)
      | (w3, some err) => (w3, Except.error err)

/-- Spec-side count of SGR parameters for a change: one per `SetTo` field,
with bold and dim coupled into a single combined parameter when either of
them is `SetTo`. Used to state the amended form of the claim about one
parameter per field. -/
def sgrParamCount (c : StyleChange) : Nat :=
  (if c.bold = Change.keep ∧ c.dim = Change.keep then 0 else 1)
    + (if c.italic = Change.keep then 0 else 1)
    + (if c.underline = Change.keep then 0 else 1)
    + (if c.blink = Change.keep then 0 else 1)
    + (if c.strike = Change.keep then 0 else 1)
    + (if c.foreground = Change.keep then 0 else 1)
    + (if c.background = Change.keep then 0 else 1)

/-! ## Helper lemmas -/

/-- Per-field revert/apply round trip: the core of C1. -/
theorem Change.revertApply {T : Type} (ch : Change T) (previous : T) :
    (ch.revertingTo previous).applyTo (ch.applyTo previous) = previous := by
  cases ch <;> rfl

/-- Reverting then applying restores the previous style. -/
theorem StyleChange.revertingTo_applyTo (c : StyleChange) (s : Style) :
    (c.revertingTo s).applyTo (c.applyTo s) = s := by
  apply Style.ext <;> exact Change.revertApply _ _

/-- Applying the all-keep change is the identity. -/
theorem StyleChange.applyTo_KEEP (s : Style) : StyleChange.KEEP.applyTo s = s := rfl

/-- A change with `any = false` is the all-keep change. -/
theorem StyleChange.eq_KEEP_of_any_eq_false (c : StyleChange) (h : c.any = false) :
    c = StyleChange.KEEP := by
  obtain ⟨f, g, bo, di, un, it, bl, st⟩ := c
  cases f <;> cases g <;> cases bo <;> cases di <;> cases un <;> cases it <;>
    cases bl <;> cases st <;> first | rfl | simp [StyleChange.any] at h

/-- On a sink that never fails, a write sequence succeeds and preserves the
failure schedule and the error payload. -/
theorem Sink.writeAll_of_failAfter_none (l : List String) :
    ∀ s : Sink, s.failAfter = none →
      (s.writeAll l).2 = none ∧ (s.writeAll l).1.failAfter = none
        ∧ (s.writeAll l).1.err = s.err := by
  induction l with
  | nil => exact fun s h => ⟨rfl, h, rfl⟩
  | cons str rest ih =>
    intro s h
    have hw : s.write str = ({ s with out := s.out ++ str }, none) := by
      simp [Sink.write, h]
    simp only [Sink.writeAll, hw]
    exact ih _ h

/-- On a sink that never fails, a write sequence appends every chunk in
order. -/
theorem Sink.writeAll_out_of_failAfter_none (l : List String) :
    ∀ s : Sink, s.failAfter = none →
      (s.writeAll l).1.out = l.foldl (fun a b => a ++ b) s.out := by
  induction l with
  | nil => exact fun s _ => rfl
  | cons str rest ih =>
    intro s h
    have hw : s.write str = ({ s with out := s.out ++ str }, none) := by
      simp [Sink.write, h]
    simp only [Sink.writeAll, hw, List.foldl]
    exact ih _ h

/-- The style stored by the ANSI emission path is exactly the keep-or-set
resolution of the change against the current style. -/
theorem ANSIStyledWriter.changeStyleComponents_style (s : Style) (c : StyleChange) :
    (ANSIStyledWriter.changeStyleComponents s c).2 = c.applyTo s := by
  obtain ⟨f, g, bo, di, un, it, bl, st⟩ := c
  apply Style.ext <;>
    cases bo <;> cases di <;>
    first
      | rfl
      | (cases hf : f <;> rfl)
      | (cases hg : g <;> rfl)
      | (rcases un with _ | u <;> first | rfl | (cases u <;> rfl))
      | (rcases it with _ | i <;> first | rfl | (cases i <;> rfl))
      | (rcases bl with _ | b <;> first | rfl | (cases b <;> rfl))
      | (rcases st with _ | t <;> first | rfl | (cases t <;> rfl))

/-- On a never-failing sink, `ANSIStyledWriter::change_style` succeeds, its
stored style becomes the keep-or-set resolution of the change, and the sink
stays never-failing with the same error payload. -/
theorem ANSIStyledWriter.changeStyle_of_failAfter_none (w : ANSIStyledWriter)
    (c : StyleChange) (h : w.writer.failAfter = none) :
    (w.changeStyle c).2 = none ∧ (w.changeStyle c).1.style = c.applyTo w.style
      ∧ (w.changeStyle c).1.writer.failAfter = none
      ∧ (w.changeStyle c).1.writer.err = w.writer.err := by
  by_cases ha : c.any
  · obtain ⟨h1, h2, h3⟩ :=
      Sink.writeAll_of_failAfter_none
        (sgrWrites (ANSIStyledWriter.changeStyleComponents w.style c).1) w.writer h
    rcases hw : w.writer.writeAll
        (sgrWrites (ANSIStyledWriter.changeStyleComponents w.style c).1) with ⟨sink, res⟩
    rw [hw] at h1 h2 h3
    simp only at h1 h2 h3
    subst h1
    have hc : w.changeStyle c = ({ writer := sink, style := c.applyTo w.style }, none) := by
      rw [show c.applyTo w.style = (ANSIStyledWriter.changeStyleComponents w.style c).2 from
        (ANSIStyledWriter.changeStyleComponents_style w.style c).symm]
      simp only [ANSIStyledWriter.changeStyle, ha, if_true]
      rw [show ANSIStyledWriter.changeStyleComponents w.style c =
        ((ANSIStyledWriter.changeStyleComponents w.style c).1,
         (ANSIStyledWriter.changeStyleComponents w.style c).2) from rfl, hw]
    rw [hc]
    exact ⟨rfl, rfl, h2, h3⟩
  · rw [Bool.not_eq_true] at ha
    rw [StyleChange.eq_KEEP_of_any_eq_false c ha]
    exact ⟨rfl, rfl, h, rfl⟩

/-- Swapping the colors of a style twice is the identity. -/
theorem Style.colorsSwapped_colorsSwapped (s : Style) :
    s.colorsSwapped.colorsSwapped = s := rfl

/-- On an equal-color style, swapping the colors is the identity. -/
theorem Style.colorsSwapped_of_eq (s : Style) (h : s.foreground = s.background) :
    s.colorsSwapped = s := by
  apply Style.ext <;> simp [Style.colorsSwapped, h]

/-- On a never-failing sink, `ANSIStyledWriter::swap_colors` succeeds,
swaps exactly the two color fields, and keeps the sink never-failing. -/
theorem ANSIStyledWriter.swapColors_of_failAfter_none (w : ANSIStyledWriter)
    (hf : w.writer.failAfter = none) :
    (w.swapColors).2 = none ∧ (w.swapColors).1.style = w.style.colorsSwapped
      ∧ (w.swapColors).1.writer.failAfter = none := by
  by_cases h : w.style.foreground = w.style.background
  · have hsw : w.swapColors = (w, none) := by
      simp only [ANSIStyledWriter.swapColors, if_pos h]
    rw [hsw]
    exact ⟨rfl, (Style.colorsSwapped_of_eq w.style h).symm, hf⟩
  · obtain ⟨h1, h2, _⟩ := Sink.writeAll_of_failAfter_none
      ["\x1B[", foregroundComponent w.style.background, ";",
       backgroundComponent w.style.foreground, "m"] w.writer hf
    rcases hw : w.writer.writeAll
        ["\x1B[", foregroundComponent w.style.background, ";",
         backgroundComponent w.style.foreground, "m"] with ⟨sink, res⟩
    rw [hw] at h1 h2
    simp only at h1 h2
    subst h1
    have hsw : w.swapColors =
        ({ writer := sink, style := w.style.colorsSwapped }, none) := by
      simp only [ANSIStyledWriter.swapColors, if_neg h, hw]
      rfl
    rw [hsw]
    exact ⟨rfl, rfl, h2⟩

/-- The no-op backend and the ANSI backend resolve any sequence of changes
to the same style, and the no-op backend never touches its sink. -/
theorem applySeq_styles (cs : List StyleChange) :
    ∀ (n : NotStyledWriter) (a : ANSIStyledWriter),
      n.style = a.style → a.writer.failAfter = none →
      (n.applySeq cs).writer = n.writer
        ∧ (n.applySeq cs).style = (a.applySeq cs).style := by
  induction cs with
  | nil => exact fun n a h _ => ⟨rfl, h⟩
  | cons c rest ih =>
    intro n a h hf
    obtain ⟨_, h2, h3, _⟩ := ANSIStyledWriter.changeStyle_of_failAfter_none a c hf
    have hstep : ((n.changeStyle c).1).style = ((a.changeStyle c).1).style := by
      rw [h2]
      simp [NotStyledWriter.changeStyle, h]
    obtain ⟨g1, g2⟩ := ih (n.changeStyle c).1 (a.changeStyle c).1 hstep h3
    exact ⟨g1.trans rfl, g2⟩

/-! ## Claims -/

/-- C1: for every `Style` `s` and `StyleChange` `c`, applying the reverting
change after the original change restores `s` exactly
(`c.reverting_to(s).apply_to(c.apply_to(s)) == s`), and every field that is
`Keep` in `c` stays `Keep` in `c.reverting_to(s)`. -/
theorem spec_c1 (s : Style) (c : StyleChange) :
    (c.revertingTo s).applyTo (c.applyTo s) = s
    ∧ (c.foreground = Change.keep → (c.revertingTo s).foreground = Change.keep)
    ∧ (c.background = Change.keep → (c.revertingTo s).background = Change.keep)
    ∧ (c.bold = Change.keep → (c.revertingTo s).bold = Change.keep)
    ∧ (c.dim = Change.keep → (c.revertingTo s).dim = Change.keep)
    ∧ (c.underline = Change.keep → (c.revertingTo s).underline = Change.keep)
    ∧ (c.italic = Change.keep → (c.revertingTo s).italic = Change.keep)
    ∧ (c.blink = Change.keep → (c.revertingTo s).blink = Change.keep)
    ∧ (c.strike = Change.keep → (c.revertingTo s).strike = Change.keep) := by
  refine ⟨StyleChange.revertingTo_applyTo c s, ?_, ?_, ?_, ?_, ?_, ?_, ?_, ?_⟩ <;>
    intro h <;> simp [StyleChange.revertingTo, h, Change.revertingTo]

/-- Witness for C1 at a concrete style and change (a bold-only change whose
other fields are `Keep`). -/
theorem spec_c1_witness :
    (({ StyleChange.KEEP with bold := Change.setTo true }).revertingTo Style.default).applyTo
        (({ StyleChange.KEEP with bold := Change.setTo true }).applyTo Style.default)
      = Style.default
    ∧ (({ StyleChange.KEEP with
          bold := Change.setTo true }).revertingTo Style.default).foreground = Change.keep :=
  ⟨(spec_c1 Style.default { StyleChange.KEEP with bold := Change.setTo true }).1,
   (spec_c1 Style.default { StyleChange.KEEP with bold := Change.setTo true }).2.1 rfl⟩

/-- C2: a `StyleChange` whose eight fields are all `Keep` is a strict no-op
on both backends: no bytes reach the sink, the call succeeds, and the whole
writer state (including the recorded style) is unchanged. -/
theorem spec_c2 (c : StyleChange) (h : c.any = false) :
    (∀ w : ANSIStyledWriter, w.changeStyle c = (w, none))
    ∧ (∀ v : NotStyledWriter, v.changeStyle c = (v, none)) := by
  rw [StyleChange.eq_KEEP_of_any_eq_false c h]
  exact ⟨fun w => rfl, fun v => rfl⟩

/-- Witness for C2 at the all-keep change and a concrete writer state. -/
theorem spec_c2_witness :
    ANSIStyledWriter.changeStyle ⟨⟨"abc", none, 0⟩, Style.default⟩ StyleChange.KEEP
        = (⟨⟨"abc", none, 0⟩, Style.default⟩, none)
    ∧ NotStyledWriter.changeStyle ⟨⟨"abc", none, 0⟩, Style.default⟩ StyleChange.KEEP
        = (⟨⟨"abc", none, 0⟩, Style.default⟩, none) :=
  ⟨(spec_c2 StyleChange.KEEP rfl).1 _, (spec_c2 StyleChange.KEEP rfl).2 _⟩

/-- C10: `NotStyledWriter::change_style` never fails: it returns `Ok(())`
for every change in every state, its only effect is storing the keep-or-set
resolution of the change (the sink is untouched), and the derived
`reset_style` and `swap_colors` therefore also always return `Ok(())`. -/
theorem spec_c10 (w : NotStyledWriter) (c : StyleChange) :
    w.changeStyle c = ({ w with style := c.applyTo w.style }, none)
    ∧ w.resetStyle = ({ w with style := Style.default }, none)
    ∧ w.swapColors = ({ w with style := w.style.colorsSwapped }, none) :=
  ⟨rfl, rfl, rfl⟩

/-- C4: the ANSI backend's single-field sequences: from any style, setting
only the foreground to bright-red (`BRIGHT_BIT|RED_BIT`) emits exactly
`ESC[91m`; setting only the background to 256-color index 200 emits exactly
`ESC[48;5;200m`; whenever bold or dim is changed, a single combined code is
emitted for the resulting (bold, dim) pair per the `boldDimCode` table; and
enabling bold while dim is off emits exactly `ESC[22;1m`. -/
theorem spec_c4 :
    (∀ s : Style, ANSIStyledWriter.changeStyle ⟨⟨"", none, 0⟩, s⟩
        { StyleChange.KEEP with
          foreground := Change.setTo (Color.color4Bit
            (Color4Bit.BRIGHT_BIT ||| Color4Bit.RED_BIT)) }
      = (⟨⟨"\x1B[91m", none, 0⟩,
          { s with foreground := Color.color4Bit (Color4Bit.BRIGHT_BIT ||| Color4Bit.RED_BIT) }⟩, none))
    ∧ (∀ s : Style, ANSIStyledWriter.changeStyle ⟨⟨"", none, 0⟩, s⟩
        { StyleChange.KEEP with background := Change.setTo (Color.ansi256 200) }
      = (⟨⟨"\x1B[48;5;200m", none, 0⟩, { s with background := Color.ansi256 200 }⟩, none))
    ∧ (∀ (s : Style) (c : StyleChange), ¬(c.bold = Change.keep ∧ c.dim = Change.keep) →
        (ANSIStyledWriter.changeStyleComponents s c).1
          = boldDimCode (c.bold.applyTo s.bold) (c.dim.applyTo s.dim)
            :: (ANSIStyledWriter.changeStyleComponents s
                 { c with bold := Change.keep, dim := Change.keep }).1)
    ∧ (∀ s : Style, s.dim = false →
        ANSIStyledWriter.changeStyle ⟨⟨"", none, 0⟩, s⟩
            { StyleChange.KEEP with bold := Change.setTo true }
          = (⟨⟨"\x1B[22;1m", none, 0⟩, { s with bold := true }⟩, none)) := by
  refine ⟨fun s => rfl, fun s => rfl, ?_, ?_⟩
  · intro s c h
    obtain ⟨f, g, bo, di, un, it, bl, st⟩ := c
    obtain ⟨sf, sg, sbo, sdi, sun, sit, sbl, sst⟩ := s
    rcases bo with _ | b
    · rcases di with _ | d
      · exact absurd ⟨rfl, rfl⟩ h
      · cases sbo <;> cases d <;> rfl
    · rcases di with _ | d
      · cases b <;> cases sdi <;> rfl
      · cases b <;> cases d <;> rfl
  · intro s hdim
    obtain ⟨sf, sg, sbo, sdi, sun, sit, sbl, sst⟩ := s
    have hd : sdi = false := hdim
    subst hd
    rfl

/-- Witness for C4's conditional parts: the bold/dim coupling and the
bold-enable example at the default style. -/
theorem spec_c4_witness :
    (ANSIStyledWriter.changeStyleComponents Style.default
        { StyleChange.KEEP with bold := Change.setTo true }).1
      = boldDimCode ((Change.setTo true).applyTo Style.default.bold)
          ((Change.keep : Change Bool).applyTo Style.default.dim)
        :: (ANSIStyledWriter.changeStyleComponents Style.default
             { { StyleChange.KEEP with bold := Change.setTo true } with
               bold := Change.keep, dim := Change.keep }).1
    ∧ ANSIStyledWriter.changeStyle ⟨⟨"", none, 0⟩, Style.default⟩
        { StyleChange.KEEP with bold := Change.setTo true }
      = (⟨⟨"\x1B[22;1m", none, 0⟩, { Style.default with bold := true }⟩, none) :=
  ⟨spec_c4.2.2.1 Style.default { StyleChange.KEEP with bold := Change.setTo true }
      (by simp),
   spec_c4.2.2.2 Style.default rfl⟩

/-- C5: whenever foreground and background differ, `swap_colors` on the ANSI
backend is byte-for-byte and state-for-state identical to `change_style`
applied to the two-field change that sets each color to the other (all other
fields `Keep`); on a never-failing sink the resulting state has exactly the
two color fields swapped. -/
theorem spec_c5 (w : ANSIStyledWriter) (h : w.style.foreground ≠ w.style.background) :
    w.swapColors = w.changeStyle
        { StyleChange.KEEP with
          foreground := Change.setTo w.style.background
          background := Change.setTo w.style.foreground }
    ∧ (w.writer.failAfter = none → (w.swapColors).1.style = w.style.colorsSwapped) := by
  have heq : w.swapColors = w.changeStyle
      { StyleChange.KEEP with
        foreground := Change.setTo w.style.background
        background := Change.setTo w.style.foreground } := by
    unfold ANSIStyledWriter.swapColors ANSIStyledWriter.changeStyle
    rw [if_neg h]
    rfl
  exact ⟨heq, fun hf => (ANSIStyledWriter.swapColors_of_failAfter_none w hf).2.1⟩

/-- Witness for C5 at a concrete writer whose colors differ. -/
theorem spec_c5_witness :
    ANSIStyledWriter.swapColors
        ⟨⟨"", none, 0⟩, { Style.default with foreground := Color.ansi256 7 }⟩
      = ANSIStyledWriter.changeStyle
          ⟨⟨"", none, 0⟩, { Style.default with foreground := Color.ansi256 7 }⟩
          { StyleChange.KEEP with
            foreground := Change.setTo
              ({ Style.default with foreground := Color.ansi256 7 } : Style).background
            background := Change.setTo
              ({ Style.default with foreground := Color.ansi256 7 } : Style).foreground }
    ∧ (ANSIStyledWriter.swapColors
          ⟨⟨"", none, 0⟩, { Style.default with foreground := Color.ansi256 7 }⟩).1.style
        = ({ Style.default with foreground := Color.ansi256 7 } : Style).colorsSwapped :=
  ⟨(spec_c5 ⟨⟨"", none, 0⟩, { Style.default with foreground := Color.ansi256 7 }⟩
      (by decide)).1,
   (spec_c5 ⟨⟨"", none, 0⟩, { Style.default with foreground := Color.ansi256 7 }⟩
      (by decide)).2 rfl⟩

/-- C6: for every sequence of changes applied to a `NotStyledWriter` and an
`ANSIStyledWriter` (on a never-failing sink), both starting from the default
style, the no-op backend writes nothing to its sink and its style equals the
ANSI backend's internal style after the same sequence. Every prefix of a
sequence is itself a sequence, so this covers the style after each call. -/
theorem spec_c6 (cs : List StyleChange) (sinkN sinkA : Sink)
    (hf : sinkA.failAfter = none) :
    (NotStyledWriter.applySeq ⟨sinkN, Style.default⟩ cs).writer = sinkN
    ∧ (NotStyledWriter.applySeq ⟨sinkN, Style.default⟩ cs).style
        = (ANSIStyledWriter.applySeq ⟨sinkA, Style.default⟩ cs).style :=
  applySeq_styles cs ⟨sinkN, Style.default⟩ ⟨sinkA, Style.default⟩ rfl hf

/-- Witness for C6 at a concrete two-change sequence. -/
theorem spec_c6_witness :
    (NotStyledWriter.applySeq ⟨⟨"", none, 0⟩, Style.default⟩
        [{ StyleChange.KEEP with bold := Change.setTo true },
         { StyleChange.KEEP with foreground := Change.setTo (Color.ansi256 3) }]).writer
      = ⟨"", none, 0⟩
    ∧ (NotStyledWriter.applySeq ⟨⟨"", none, 0⟩, Style.default⟩
        [{ StyleChange.KEEP with bold := Change.setTo true },
         { StyleChange.KEEP with foreground := Change.setTo (Color.ansi256 3) }]).style
      = (ANSIStyledWriter.applySeq ⟨⟨"", none, 0⟩, Style.default⟩
          [{ StyleChange.KEEP with bold := Change.setTo true },
           { StyleChange.KEEP with foreground := Change.setTo (Color.ansi256 3) }]).style :=
  spec_c6 _ _ _ rfl

/-- C7: `swap_colors` twice restores the original state: on the no-op
backend the writer is literally unchanged (and both calls return `Ok`); on
the ANSI backend with a never-failing sink the style round-trips; and when
foreground equals background the ANSI backend performs both calls as true
no-ops, writing no bytes. -/
theorem spec_c7 :
    (∀ v : NotStyledWriter, (((v.swapColors).1).swapColors).1 = v
        ∧ (v.swapColors).2 = none ∧ (((v.swapColors).1).swapColors).2 = none)
    ∧ (∀ w : ANSIStyledWriter, w.writer.failAfter = none →
        ((((w.swapColors).1).swapColors).1).style = w.style)
    ∧ (∀ w : ANSIStyledWriter, w.style.foreground = w.style.background →
        w.swapColors = (w, none) ∧ ((w.swapColors).1).swapColors = (w, none)) := by
  refine ⟨fun v => ⟨rfl, rfl, rfl⟩, ?_, ?_⟩
  · intro w hf
    obtain ⟨_, h2, h3⟩ := ANSIStyledWriter.swapColors_of_failAfter_none w hf
    obtain ⟨_, g2, _⟩ := ANSIStyledWriter.swapColors_of_failAfter_none (w.swapColors).1 h3
    rw [g2, h2, Style.colorsSwapped_colorsSwapped]
  · intro w h
    have hsw : w.swapColors = (w, none) := by
      simp only [ANSIStyledWriter.swapColors, if_pos h]
    exact ⟨hsw, by rw [hsw]; exact hsw⟩

/-- Witness for C7's conditional parts at a concrete writer with equal
colors and a never-failing sink. -/
theorem spec_c7_witness :
    ((((ANSIStyledWriter.swapColors ⟨⟨"", none, 0⟩, Style.default⟩).1).swapColors).1).style
      = Style.default
    ∧ ANSIStyledWriter.swapColors ⟨⟨"", none, 0⟩, Style.default⟩
        = (⟨⟨"", none, 0⟩, Style.default⟩, none) :=
  ⟨spec_c7.2.1 ⟨⟨"", none, 0⟩, Style.default⟩ rfl,
   (spec_c7.2.2 ⟨⟨"", none, 0⟩, Style.default⟩ rfl).1⟩

/-- C3: on either backend, when no `change_style` call fails, `with_style!`
returns `Ok` of the work's value and the writer's recorded style after the
helper equals its recorded style before the call. For the ANSI backend "no
failure" is a never-failing sink; the work unit may mutate the writer but
(as in the intended usage, writing text) leaves the recorded style and the
failure schedule alone. The no-op backend never fails at all. -/
theorem spec_c3 :
    (∀ (V : Type) (w : ANSIStyledWriter) (c : StyleChange)
        (work : ANSIStyledWriter → ANSIStyledWriter × V),
      w.writer.failAfter = none →
      (∀ u, ((work u).1).style = u.style
          ∧ ((work u).1).writer.failAfter = u.writer.failAfter) →
      (withStyle ANSIStyledWriter.style ANSIStyledWriter.changeStyle w c work).2
          = Except.ok (work (w.changeStyle c).1).2
        ∧ ((withStyle ANSIStyledWriter.style ANSIStyledWriter.changeStyle w c work).1).style
          = w.style)
    ∧ (∀ (V : Type) (v : NotStyledWriter) (c : StyleChange)
        (work : NotStyledWriter → NotStyledWriter × V),
      (∀ u, ((work u).1).style = u.style) →
      (withStyle NotStyledWriter.style NotStyledWriter.changeStyle v c work).2
          = Except.ok (work (v.changeStyle c).1).2
        ∧ ((withStyle NotStyledWriter.style NotStyledWriter.changeStyle v c work).1).style
          = v.style) := by
  constructor
  · intro V w c work hf hwork
    obtain ⟨a1, a2, a3, _⟩ := ANSIStyledWriter.changeStyle_of_failAfter_none w c hf
    rcases e1 : w.changeStyle c with ⟨w1, r1⟩
    rw [e1] at a1 a2 a3
    simp only at a1 a2 a3
    subst a1
    obtain ⟨b1, b2⟩ := hwork w1
    rcases e3 : work w1 with ⟨w2, val⟩
    rw [e3] at b1 b2
    simp only at b1 b2
    have hf2 : w2.writer.failAfter = none := by rw [b2]; exact a3
    obtain ⟨d1, d2, _, _⟩ :=
      ANSIStyledWriter.changeStyle_of_failAfter_none w2 (c.revertingTo w.style) hf2
    rcases e2 : w2.changeStyle (c.revertingTo w.style) with ⟨w3, r3⟩
    rw [e2] at d1 d2
    simp only at d1 d2
    subst d1
    have hw : withStyle ANSIStyledWriter.style ANSIStyledWriter.changeStyle w c work
        = (w3, Except.ok val) := by
      simp only [withStyle, e1, e3, e2]
    rw [hw]
    constructor
    · rfl
    · show w3.style = w.style
      rw [d2, b1, a2]
      exact StyleChange.revertingTo_applyTo c w.style
  · intro V v c work hwork
    have a1 : (v.changeStyle c).2 = none := rfl
    have a2 : (v.changeStyle c).1.style = c.applyTo v.style := rfl
    rcases e1 : v.changeStyle c with ⟨v1, r1⟩
    rw [e1] at a1 a2
    simp only at a1 a2
    subst a1
    have b1 := hwork v1
    rcases e3 : work v1 with ⟨v2, val⟩
    rw [e3] at b1
    simp only at b1
    have d1 : (v2.changeStyle (c.revertingTo v.style)).2 = none := rfl
    have d2 : (v2.changeStyle (c.revertingTo v.style)).1.style
        = (c.revertingTo v.style).applyTo v2.style := rfl
    rcases e2 : v2.changeStyle (c.revertingTo v.style) with ⟨v3, r3⟩
    rw [e2] at d1 d2
    simp only at d1 d2
    subst d1
    have hw : withStyle NotStyledWriter.style NotStyledWriter.changeStyle v c work
        = (v3, Except.ok val) := by
      simp only [withStyle, e1, e3, e2]
    rw [hw]
    constructor
    · rfl
    · show v3.style = v.style
      rw [d2, b1, a2]
      exact StyleChange.revertingTo_applyTo c v.style

/-- Witness for C3 on both backends at a concrete writer, change, and work
unit returning 42. -/
theorem spec_c3_witness :
    (withStyle ANSIStyledWriter.style ANSIStyledWriter.changeStyle
        ⟨⟨"", none, 0⟩, Style.default⟩
        { StyleChange.KEEP with bold := Change.setTo true } (fun u => (u, 42))).2
      = Except.ok 42
    ∧ ((withStyle ANSIStyledWriter.style ANSIStyledWriter.changeStyle
        ⟨⟨"", none, 0⟩, Style.default⟩
        { StyleChange.KEEP with bold := Change.setTo true } (fun u => (u, 42))).1).style
      = Style.default
    ∧ (withStyle NotStyledWriter.style NotStyledWriter.changeStyle
        ⟨⟨"", none, 0⟩, Style.default⟩
        { StyleChange.KEEP with bold := Change.setTo true } (fun u => (u, 42))).2
      = Except.ok 42 := by
  obtain ⟨h1, h2⟩ := spec_c3.1 Nat ⟨⟨"", none, 0⟩, Style.default⟩
      { StyleChange.KEEP with bold := Change.setTo true } (fun u => (u, 42)) rfl
      (fun u => ⟨rfl, rfl⟩)
  obtain ⟨h3, _⟩ := spec_c3.2 Nat ⟨⟨"", none, 0⟩, Style.default⟩
      { StyleChange.KEEP with bold := Change.setTo true } (fun u => (u, 42))
      (fun u => rfl)
  exact ⟨h1, h2, h3⟩

/-- C8: error propagation of `with_style!`, stated for any backend exactly
as the macro is generic: if the initial `change_style` fails, the work is
never executed (the result does not depend on `work` at all) and that error
is returned with the writer as the failed call left it; if the initial call
succeeds and the reverting `change_style` fails, the work's value is
discarded and the revert error is returned. -/
theorem spec_c8 :
    (∀ {σ V : Type} (styleOf : σ → Style)
        (changeStyle : σ → StyleChange → σ × Option Nat)
        (w w1 : σ) (c : StyleChange) (e : Nat) (work : σ → σ × V),
      changeStyle w c = (w1, some e) →
      withStyle styleOf changeStyle w c work = (w1, Except.error e))
    ∧ (∀ {σ V : Type} (styleOf : σ → Style)
        (changeStyle : σ → StyleChange → σ × Option Nat)
        (w w1 w2 w3 : σ) (c : StyleChange) (e : Nat) (work : σ → σ × V) (val : V),
      changeStyle w c = (w1, none) →
      work w1 = (w2, val) →
      changeStyle w2 (c.revertingTo (styleOf w)) = (w3, some e) →
      withStyle styleOf changeStyle w c work = (w3, Except.error e)) := by
  constructor
  · intro σ V styleOf changeStyle w w1 c e work h1
    simp only [withStyle, h1]
  · intro σ V styleOf changeStyle w w1 w2 w3 c e work val h1 h2 h3
    simp only [withStyle, h1, h2, h3]

/-- Witness for C8 on the ANSI backend: a sink failing immediately (the
work is skipped, error 7 returned, nothing written) and a sink failing
during the revert (the work's value 5 is discarded, error 9 returned). -/
theorem spec_c8_witness :
    withStyle ANSIStyledWriter.style ANSIStyledWriter.changeStyle
        ⟨⟨"", some 0, 7⟩, Style.default⟩
        { StyleChange.KEEP with bold := Change.setTo true } (fun u => (u, 5))
      = (⟨⟨"", some 0, 7⟩, Style.default⟩, Except.error 7)
    ∧ withStyle ANSIStyledWriter.style ANSIStyledWriter.changeStyle
        ⟨⟨"", some 4, 9⟩, Style.default⟩
        { StyleChange.KEEP with bold := Change.setTo true } (fun u => (u, 5))
      = (⟨⟨"\x1B[22;1m\x1B[", some 0, 9⟩, { Style.default with bold := true }⟩,
         Except.error 9) :=
  ⟨spec_c8.1 ANSIStyledWriter.style ANSIStyledWriter.changeStyle
      ⟨⟨"", some 0, 7⟩, Style.default⟩ ⟨⟨"", some 0, 7⟩, Style.default⟩
      { StyleChange.KEEP with bold := Change.setTo true } 7 (fun u => (u, 5)) rfl,
   spec_c8.2 ANSIStyledWriter.style ANSIStyledWriter.changeStyle
      ⟨⟨"", some 4, 9⟩, Style.default⟩
      ⟨⟨"\x1B[22;1m", some 1, 9⟩, { Style.default with bold := true }⟩
      ⟨⟨"\x1B[22;1m", some 1, 9⟩, { Style.default with bold := true }⟩
      ⟨⟨"\x1B[22;1m\x1B[", some 0, 9⟩, { Style.default with bold := true }⟩
      { StyleChange.KEEP with bold := Change.setTo true } 9 (fun u => (u, 5)) 5
      rfl rfl rfl⟩

/-- The bold/dim block contributes exactly one component when either field
is `SetTo`, none otherwise. -/
theorem boldDimComponents_length (s : Style) (c : StyleChange) :
    (boldDimComponents s c).1.length
      = if c.bold = Change.keep ∧ c.dim = Change.keep then 0 else 1 := by
  rcases hb : c.bold with _ | b <;> rcases hd : c.dim with _ | d <;>
    simp [boldDimComponents, hb, hd]

/-- The italic block contributes exactly one component when `SetTo`. -/
theorem italicComponents_length (s : Style) (c : StyleChange) :
    (italicComponents s c).1.length = if c.italic = Change.keep then 0 else 1 := by
  rcases hi : c.italic with _ | b
  · simp [italicComponents, hi]
  · cases b <;> simp [italicComponents, hi]

/-- The underline block contributes exactly one component when `SetTo`. -/
theorem underlineComponents_length (s : Style) (c : StyleChange) :
    (underlineComponents s c).1.length = if c.underline = Change.keep then 0 else 1 := by
  rcases hu : c.underline with _ | b
  · simp [underlineComponents, hu]
  · cases b <;> simp [underlineComponents, hu]

/-- The blink block contributes exactly one component when `SetTo`. -/
theorem blinkComponents_length (s : Style) (c : StyleChange) :
    (blinkComponents s c).1.length = if c.blink = Change.keep then 0 else 1 := by
  rcases hb : c.blink with _ | b
  · simp [blinkComponents, hb]
  · cases b <;> simp [blinkComponents, hb]

/-- The strike block contributes exactly one component when `SetTo`. -/
theorem strikeComponents_length (s : Style) (c : StyleChange) :
    (strikeComponents s c).1.length = if c.strike = Change.keep then 0 else 1 := by
  rcases hs : c.strike with _ | b
  · simp [strikeComponents, hs]
  · cases b <;> simp [strikeComponents, hs]

/-- The foreground block contributes exactly one component when `SetTo`. -/
theorem foregroundComponents_length (s : Style) (c : StyleChange) :
    (foregroundComponents s c).1.length = if c.foreground = Change.keep then 0 else 1 := by
  rcases hf : c.foreground with _ | col <;> simp [foregroundComponents, hf]

/-- The background block contributes exactly one component when `SetTo`. -/
theorem backgroundComponents_length (s : Style) (c : StyleChange) :
    (backgroundComponents s c).1.length = if c.background = Change.keep then 0 else 1 := by
  rcases hg : c.background with _ | col <;> simp [backgroundComponents, hg]

/-- The component list has exactly one entry per `SetTo` field, with bold
and dim coupled into one. -/
theorem ANSIStyledWriter.changeStyleComponents_length (s : Style) (c : StyleChange) :
    (ANSIStyledWriter.changeStyleComponents s c).1.length = sgrParamCount c := by
  simp only [ANSIStyledWriter.changeStyleComponents, sgrParamCount, List.length_append,
    boldDimComponents_length, italicComponents_length, underlineComponents_length,
    blinkComponents_length, strikeComponents_length, foregroundComponents_length,
    backgroundComponents_length]

/-- A change with `any = true` has at least one SGR parameter. -/
theorem sgrParamCount_pos (c : StyleChange) (h : c.any = true) : 1 ≤ sgrParamCount c := by
  obtain ⟨f, g, bo, di, un, it, bl, st⟩ := c
  cases f <;> cases g <;> cases bo <;> cases di <;> cases un <;> cases it <;>
    cases bl <;> cases st <;>
    first
      | (simp [sgrParamCount]; done)
      | simp [StyleChange.any] at h

/-- The `write_component!` tail: later components are each preceded by a
`";"` and the sequence closes with `"m"`. -/
theorem cons_sgrTail (xs : List String) :
    ∀ x, x :: sgrTail xs = List.intersperse ";" (x :: xs) ++ ["m"] := by
  induction xs with
  | nil => intro x; rfl
  | cons y tl ih =>
    intro x
    show x :: ";" :: y :: sgrTail tl
        = x :: ";" :: (List.intersperse ";" (y :: tl) ++ ["m"])
    rw [← ih y]

/-- For a nonempty component list the atomic writes are one `ESC[`, the
components separated by `";"`, and a closing `"m"`. -/
theorem sgrWrites_eq (comps : List String) (h : comps ≠ []) :
    sgrWrites comps = "\x1B[" :: (List.intersperse ";" comps ++ ["m"]) := by
  cases comps with
  | nil => exact absurd rfl h
  | cons x xs =>
    show "\x1B[" :: x :: sgrTail xs = _
    rw [cons_sgrTail xs x]

/-- On a never-failing sink and a non-no-op change, the bytes appended by
`change_style` are exactly the fold of its atomic write sequence. -/
theorem ANSIStyledWriter.changeStyle_out_of_any (w : ANSIStyledWriter) (c : StyleChange)
    (hf : w.writer.failAfter = none) (h : c.any = true) :
    (w.changeStyle c).1.writer.out
      = (sgrWrites (ANSIStyledWriter.changeStyleComponents w.style c).1).foldl
          (fun a b => a ++ b) w.writer.out := by
  have hout := Sink.writeAll_out_of_failAfter_none
      (sgrWrites (ANSIStyledWriter.changeStyleComponents w.style c).1) w.writer hf
  obtain ⟨h1, _, _⟩ := Sink.writeAll_of_failAfter_none
      (sgrWrites (ANSIStyledWriter.changeStyleComponents w.style c).1) w.writer hf
  rcases hw : w.writer.writeAll
      (sgrWrites (ANSIStyledWriter.changeStyleComponents w.style c).1) with ⟨sink, res⟩
  rw [hw] at hout h1
  simp only at hout h1
  subst h1
  have hc : w.changeStyle c
      = ({ writer := sink,
           style := (ANSIStyledWriter.changeStyleComponents w.style c).2 }, none) := by
    simp only [ANSIStyledWriter.changeStyle, h, if_true]
    rw [show ANSIStyledWriter.changeStyleComponents w.style c
        = ((ANSIStyledWriter.changeStyleComponents w.style c).1,
           (ANSIStyledWriter.changeStyleComponents w.style c).2) from rfl, hw]
  rw [hc]
  exact hout

/-- C9 counterexample: with the current style already italic, the change
whose only non-`Keep` field sets italic to `true` changes nothing (its
`apply_to` is the identity on this style), yet the ANSI backend still
contributes the SGR parameter `3` and writes `ESC[3m` — the claim that a
`SetTo` field equal to the current value contributes no parameter fails. -/
theorem spec_c9_counterexample :
    ({ StyleChange.KEEP with italic := Change.setTo true }).applyTo
        { Style.default with italic := true }
      = { Style.default with italic := true }
    ∧ (ANSIStyledWriter.changeStyleComponents { Style.default with italic := true }
        { StyleChange.KEEP with italic := Change.setTo true }).1 = ["3"]
    ∧ (ANSIStyledWriter.changeStyle ⟨⟨"", none, 0⟩, { Style.default with italic := true }⟩
        { StyleChange.KEEP with italic := Change.setTo true }).1.writer.out
      = "\x1B[3m" :=
  ⟨rfl, rfl, rfl⟩

/-- C9 (amended): when a `StyleChange` is not all-`Keep`, the ANSI backend
opens one `ESC[`, emits one SGR parameter per `SetTo` field (bold/dim
coupled into a single combined parameter when either is `SetTo`), separated
by `;` and closed with `m` — a `SetTo` field contributes its parameter
whether or not its value differs from the current style. -/
theorem spec_c9 (s : Style) (c : StyleChange) (h : c.any = true) (e : Nat) :
    (ANSIStyledWriter.changeStyle ⟨⟨"", none, e⟩, s⟩ c).1.writer.out
      = String.join ("\x1B[" ::
          (List.intersperse ";" (ANSIStyledWriter.changeStyleComponents s c).1 ++ ["m"]))
    ∧ (ANSIStyledWriter.changeStyleComponents s c).1.length = sgrParamCount c := by
  have hlen := ANSIStyledWriter.changeStyleComponents_length s c
  have hne : (ANSIStyledWriter.changeStyleComponents s c).1 ≠ [] := by
    intro hnil
    have hp := sgrParamCount_pos c h
    rw [← hlen, hnil] at hp
    simp at hp
  refine ⟨?_, hlen⟩
  have hout := ANSIStyledWriter.changeStyle_out_of_any ⟨⟨"", none, e⟩, s⟩ c rfl h
  rw [hout]
  show (sgrWrites (ANSIStyledWriter.changeStyleComponents s c).1).foldl
      (fun a b => a ++ b) "" = _
  rw [sgrWrites_eq _ hne]
  rfl

/-- Witness for C9 (amended) at a concrete two-field change. -/
theorem spec_c9_witness :
    (ANSIStyledWriter.changeStyle ⟨⟨"", none, 0⟩, Style.default⟩
        { StyleChange.KEEP with
          bold := Change.setTo true
          foreground := Change.setTo (Color.ansi256 200) }).1.writer.out
      = String.join ("\x1B[" :: (List.intersperse ";"
          (ANSIStyledWriter.changeStyleComponents Style.default
            { StyleChange.KEEP with
              bold := Change.setTo true
              foreground := Change.setTo (Color.ansi256 200) }).1 ++ ["m"]))
    ∧ (ANSIStyledWriter.changeStyleComponents Style.default
        { StyleChange.KEEP with
          bold := Change.setTo true
          foreground := Change.setTo (Color.ansi256 200) }).1.length
      = sgrParamCount
          { StyleChange.KEEP with
            bold := Change.setTo true
            foreground := Change.setTo (Color.ansi256 200) } :=
  spec_c9 Style.default
    { StyleChange.KEEP with
      bold := Change.setTo true
      foreground := Change.setTo (Color.ansi256 200) } rfl 0

end PromptUtils
